import Mathlib

/-
Verification of the rarity-mention crate (src/src/lib.rs): a shallow
embedding of the mention-formatting library into Lean 4.

The crate wraps Discord entity identifiers (channel, emoji, role, user)
in a generic MentionFormat wrapper and renders each wrapper to the
platform mention syntax.  Identifiers are 64-bit unsigned integers; we
model their values as Nat (no arithmetic is ever performed on them, so
no wrap-around can occur; theorems about "64-bit" inputs carry an
explicit bound n < 2^64).  The external twilight-model record types are
modelled with the identifier field the crate reads plus representative
extra payload fields, so that delegation statements are not vacuous.
-/

namespace RarityMention

/-- Identifier of a channel: models `ChannelId(pub u64)`; `val` is the u64 value. -/
structure ChannelId where
  val : Nat
  deriving DecidableEq, Repr

/-- Identifier of an emoji: models `EmojiId(pub u64)`. -/
structure EmojiId where
  val : Nat
  deriving DecidableEq, Repr

/-- Identifier of a role: models `RoleId(pub u64)`. -/
structure RoleId where
  val : Nat
  deriving DecidableEq, Repr

/-- Identifier of a user: models `UserId(pub u64)`. -/
structure UserId where
  val : Nat
  deriving DecidableEq, Repr

/-- Models `pub struct MentionFormat<T>(T)`: the opaque mention wrapper. -/
structure MentionFormat (T : Type) where
  val : T
  deriving DecidableEq, Repr

/-- Models the `std::fmt::Display` capability: render a value to text. -/
class Display (α : Type) where
  display : α → String

export Display (display)

/-- Models `impl Display for MentionFormat<ChannelId>`: writes `<#{id}>`. -/
instance : Display (MentionFormat ChannelId) :=
  ⟨fun m => "<#" ++ Nat.repr m.val.val ++ ">"⟩

/-- Models `impl Display for MentionFormat<EmojiId>`: writes `<:emoji:{id}>`. -/
instance : Display (MentionFormat EmojiId) :=
  ⟨fun m => "<:emoji:" ++ Nat.repr m.val.val ++ ">"⟩

/-- Models `impl Display for MentionFormat<RoleId>`: writes `<@&{id}>`. -/
instance : Display (MentionFormat RoleId) :=
  ⟨fun m => "<@&" ++ Nat.repr m.val.val ++ ">"⟩

/-- Models `impl Display for MentionFormat<UserId>`: writes `<@{id}>`. -/
instance : Display (MentionFormat UserId) :=
  ⟨fun m => "<@" ++ Nat.repr m.val.val ++ ">"⟩

/-- Models `pub trait Mention<T> { fn mention(&self) -> MentionFormat<T>; }`. -/
class Mention (S : Type) (T : outParam Type) where
  mention : S → MentionFormat T

export Mention (mention)

/-- Models a shared (immutable) Rust reference `&T`. -/
structure Ref (α : Type) where
  deref : α

/-- External twilight-model record `CategoryChannel` (the crate reads only `id`). -/
structure CategoryChannel where
  id : ChannelId
  name : String

/-- External twilight-model record `TextChannel` (the crate reads only `id`). -/
structure TextChannel where
  id : ChannelId
  name : String

/-- External twilight-model record `VoiceChannel` (the crate reads only `id`). -/
structure VoiceChannel where
  id : ChannelId
  name : String

/-- External twilight-model record `PrivateChannel` (the crate reads only `id`). -/
structure PrivateChannel where
  id : ChannelId
  recipients : List UserId

/-- External twilight-model record `Group` (a group DM; the crate reads only `id`). -/
structure Group where
  id : ChannelId
  name : Option String

/-- External twilight-model enum `GuildChannel` with its three sub-variants. -/
inductive GuildChannel where
  | Category : CategoryChannel → GuildChannel
  | Text : TextChannel → GuildChannel
  | Voice : VoiceChannel → GuildChannel

/-- External twilight-model enum `Channel`: the generic channel union. -/
inductive Channel where
  | Group : Group → Channel
  | Guild : GuildChannel → Channel
  | Private : PrivateChannel → Channel

/-- External twilight-model record `Emoji` (the crate reads only `id`). -/
structure Emoji where
  id : EmojiId
  name : String

/-- External twilight-model record `User` (the crate reads only `id`). -/
structure User where
  id : UserId
  name : String

/-- External twilight-model record `CurrentUser` (the crate reads only `id`). -/
structure CurrentUser where
  id : UserId
  name : String

/-- External twilight-model record `Member` (the crate reads only `user.id`). -/
structure Member where
  user : User
  nick : Option String

/-- Models `fn guild_channel_id(channel: &GuildChannel) -> ChannelId`. -/
def guild_channel_id : GuildChannel → ChannelId
  | GuildChannel.Category c => c.id
  | GuildChannel.Text c => c.id
  | GuildChannel.Voice c => c.id

/-- Models `impl Mention<ChannelId> for ChannelId`. -/
instance : Mention ChannelId ChannelId :=
  ⟨fun i => MentionFormat.mk i⟩

/-- Models `impl Mention<ChannelId> for &ChannelId`: forwards to the value form. -/
instance : Mention (Ref ChannelId) ChannelId :=
  ⟨fun r => mention r.deref⟩

/-- Models `impl Mention<ChannelId> for CategoryChannel`. -/
instance : Mention CategoryChannel ChannelId :=
  ⟨fun c => MentionFormat.mk c.id⟩

/-- Models `impl Mention<ChannelId> for &CategoryChannel`: forwards to the value form. -/
instance : Mention (Ref CategoryChannel) ChannelId :=
  ⟨fun r => mention r.deref⟩

/-- Models `impl Mention<ChannelId> for Channel`: dispatch over the union. -/
instance : Mention Channel ChannelId :=
  ⟨fun ch =>
    MentionFormat.mk (match ch with
      | Channel.Group group => group.id
      | Channel.Guild guild => guild_channel_id guild
      | Channel.Private priv => priv.id)⟩

/-- Models `impl Mention<ChannelId> for &Channel`: forwards to the value form. -/
instance : Mention (Ref Channel) ChannelId :=
  ⟨fun r => mention r.deref⟩

/-- Models `impl Mention<UserId> for CurrentUser`. -/
instance : Mention CurrentUser UserId :=
  ⟨fun u => MentionFormat.mk u.id⟩

/-- Models `impl Mention<UserId> for &CurrentUser`: forwards to the value form. -/
instance : Mention (Ref CurrentUser) UserId :=
  ⟨fun r => mention r.deref⟩

/-- Models `impl Mention<EmojiId> for EmojiId`. -/
instance : Mention EmojiId EmojiId :=
  ⟨fun i => MentionFormat.mk i⟩

/-- Models `impl Mention<EmojiId> for &EmojiId`: forwards to the value form. -/
instance : Mention (Ref EmojiId) EmojiId :=
  ⟨fun r => mention r.deref⟩

/-- Models `impl Mention<EmojiId> for Emoji`. -/
instance : Mention Emoji EmojiId :=
  ⟨fun e => MentionFormat.mk e.id⟩

/-- Models `impl Mention<EmojiId> for &Emoji`: forwards to the value form. -/
instance : Mention (Ref Emoji) EmojiId :=
  ⟨fun r => mention r.deref⟩

/-- Models `impl Mention<ChannelId> for Group`. -/
instance : Mention Group ChannelId :=
  ⟨fun g => MentionFormat.mk g.id⟩

/-- Models `impl Mention<ChannelId> for &Group`: forwards to the value form. -/
instance : Mention (Ref Group) ChannelId :=
  ⟨fun r => mention r.deref⟩

/-- Models `impl Mention<ChannelId> for GuildChannel`. -/
instance : Mention GuildChannel ChannelId :=
  ⟨fun g => MentionFormat.mk (guild_channel_id g)⟩

/-- Models `impl Mention<ChannelId> for &GuildChannel`: forwards to the value form. -/
instance : Mention (Ref GuildChannel) ChannelId :=
  ⟨fun r => mention r.deref⟩

/-- Models `impl Mention<UserId> for Member`: mentions the embedded user. -/
instance : Mention Member UserId :=
  ⟨fun m => MentionFormat.mk m.user.id⟩

/-- Models `impl Mention<UserId> for &Member`: forwards to the value form. -/
instance : Mention (Ref Member) UserId :=
  ⟨fun r => mention r.deref⟩

/-- Models `impl Mention<ChannelId> for PrivateChannel`. -/
instance : Mention PrivateChannel ChannelId :=
  ⟨fun p => MentionFormat.mk p.id⟩

/-- Models `impl Mention<ChannelId> for &PrivateChannel`: forwards to the value form. -/
instance : Mention (Ref PrivateChannel) ChannelId :=
  ⟨fun r => mention r.deref⟩

/-- Models `impl Mention<RoleId> for RoleId`. -/
instance : Mention RoleId RoleId :=
  ⟨fun i => MentionFormat.mk i⟩

/-- Models `impl Mention<RoleId> for &RoleId`: forwards to the value form. -/
instance : Mention (Ref RoleId) RoleId :=
  ⟨fun r => mention r.deref⟩

/-- Models `impl Mention<ChannelId> for TextChannel`. -/
instance : Mention TextChannel ChannelId :=
  ⟨fun c => MentionFormat.mk c.id⟩

/-- Models `impl Mention<ChannelId> for &TextChannel`: forwards to the value form. -/
instance : Mention (Ref TextChannel) ChannelId :=
  ⟨fun r => mention r.deref⟩

/-- Models `impl Mention<UserId> for UserId`. -/
instance : Mention UserId UserId :=
  ⟨fun i => MentionFormat.mk i⟩

/-- Models `impl Mention<UserId> for &UserId`: forwards to the value form. -/
instance : Mention (Ref UserId) UserId :=
  ⟨fun r => mention r.deref⟩

/-- Models `impl Mention<UserId> for User`. -/
instance : Mention User UserId :=
  ⟨fun u => MentionFormat.mk u.id⟩

/-- Models `impl Mention<UserId> for &User`: forwards to the value form. -/
instance : Mention (Ref User) UserId :=
  ⟨fun r => mention r.deref⟩

/-- Models `impl Mention<ChannelId> for VoiceChannel`. -/
instance : Mention VoiceChannel ChannelId :=
  ⟨fun c => MentionFormat.mk c.id⟩

/-- Models `impl Mention<ChannelId> for &VoiceChannel`: forwards to the value form. -/
instance : Mention (Ref VoiceChannel) ChannelId :=
  ⟨fun r => mention r.deref⟩

/-- Helper: a string that starts with a nonempty piece is not the empty string. -/
theorem wrapped_ne_empty (p s q : String) (h : 0 < p.length) : p ++ s ++ q ≠ "" := by
  intro hc
  have hl := congrArg String.length hc
  simp [String.length_append] at hl
  omega

/-- Claim C1: for every non-negative 64-bit integer n, mentioning the user
identifier with value n and rendering the wrapper yields exactly `<@n>`
with n in decimal. -/
theorem userId_mention_renders (n : Nat) (_h : n < 2 ^ 64) :
    display (mention (UserId.mk n)) = "<@" ++ Nat.repr n ++ ">" := rfl

/-- Claim C1 witness: the theorem applied at the concrete value 123. -/
theorem userId_mention_renders_witness :
    display (mention (UserId.mk 123)) = "<@123>" :=
  (userId_mention_renders 123 (by norm_num)).trans rfl

/-- Claim C2: for every non-negative 64-bit integer n, mentioning the channel
identifier with value n and rendering the wrapper yields exactly `<#n>`
with n in decimal. -/
theorem channelId_mention_renders (n : Nat) (_h : n < 2 ^ 64) :
    display (mention (ChannelId.mk n)) = "<#" ++ Nat.repr n ++ ">" := rfl

/-- Claim C2 witness: the theorem applied at the concrete value 123. -/
theorem channelId_mention_renders_witness :
    display (mention (ChannelId.mk 123)) = "<#123>" :=
  (channelId_mention_renders 123 (by norm_num)).trans rfl

/-- Claim C3: for every non-negative 64-bit integer n, mentioning the emoji
identifier with value n and rendering the wrapper yields exactly
`<:emoji:n>` with n in decimal. -/
theorem emojiId_mention_renders (n : Nat) (_h : n < 2 ^ 64) :
    display (mention (EmojiId.mk n)) = "<:emoji:" ++ Nat.repr n ++ ">" := rfl

/-- Claim C3 witness: the theorem applied at the concrete value 123. -/
theorem emojiId_mention_renders_witness :
    display (mention (EmojiId.mk 123)) = "<:emoji:123>" :=
  (emojiId_mention_renders 123 (by norm_num)).trans rfl

/-- Claim C4: for every non-negative 64-bit integer n, mentioning the role
identifier with value n and rendering the wrapper yields exactly `<@&n>`
with n in decimal. -/
theorem roleId_mention_renders (n : Nat) (_h : n < 2 ^ 64) :
    display (mention (RoleId.mk n)) = "<@&" ++ Nat.repr n ++ ">" := rfl

/-- Claim C4 witness: the theorem applied at the concrete value 123. -/
theorem roleId_mention_renders_witness :
    display (mention (RoleId.mk 123)) = "<@&123>" :=
  (roleId_mention_renders 123 (by norm_num)).trans rfl

/-- Claim C5: every domain-object variant that embeds an identifier formats
to exactly the same text as its embedded identifier formatted directly;
in particular a guild member formats like the user identifier of the user
record it embeds, and each variant of the channel union formats like the
identifier it carries. -/
theorem domain_object_delegation :
    (∀ c : CategoryChannel, display (mention c) = display (mention c.id)) ∧
    (∀ c : TextChannel, display (mention c) = display (mention c.id)) ∧
    (∀ c : VoiceChannel, display (mention c) = display (mention c.id)) ∧
    (∀ p : PrivateChannel, display (mention p) = display (mention p.id)) ∧
    (∀ g : Group, display (mention g) = display (mention g.id)) ∧
    (∀ g : GuildChannel, display (mention g) = display (mention (guild_channel_id g))) ∧
    (∀ g : Group, display (mention (Channel.Group g)) = display (mention g.id)) ∧
    (∀ g : GuildChannel,
      display (mention (Channel.Guild g)) = display (mention (guild_channel_id g))) ∧
    (∀ p : PrivateChannel, display (mention (Channel.Private p)) = display (mention p.id)) ∧
    (∀ e : Emoji, display (mention e) = display (mention e.id)) ∧
    (∀ u : User, display (mention u) = display (mention u.id)) ∧
    (∀ u : CurrentUser, display (mention u) = display (mention u.id)) ∧
    (∀ m : Member, display (mention m) = display (mention m.user.id)) :=
  ⟨fun _ => rfl, fun _ => rfl, fun _ => rfl, fun _ => rfl, fun _ => rfl,
   fun _ => rfl, fun _ => rfl, fun _ => rfl, fun _ => rfl, fun _ => rfl,
   fun _ => rfl, fun _ => rfl, fun _ => rfl⟩

/-- Claim C6: the mention of a channel union value wraps the identifier of
whichever variant is present, and for the guild-channel variant the shared
identifier field is extracted by dispatching over category, text and voice. -/
theorem channel_union_dispatch :
    (∀ g : Group, mention (Channel.Group g) = MentionFormat.mk g.id) ∧
    (∀ g : GuildChannel,
      mention (Channel.Guild g) = MentionFormat.mk (guild_channel_id g)) ∧
    (∀ p : PrivateChannel, mention (Channel.Private p) = MentionFormat.mk p.id) ∧
    (∀ c : CategoryChannel, guild_channel_id (GuildChannel.Category c) = c.id) ∧
    (∀ c : TextChannel, guild_channel_id (GuildChannel.Text c) = c.id) ∧
    (∀ c : VoiceChannel, guild_channel_id (GuildChannel.Voice c) = c.id) :=
  ⟨fun _ => rfl, fun _ => rfl, fun _ => rfl, fun _ => rfl, fun _ => rfl, fun _ => rfl⟩

/-- Claim C7: for every supported input type, mentioning through a reference
renders to exactly the same text as mentioning the value itself. -/
theorem ref_mention_eq_value_mention :
    (∀ x : ChannelId, display (mention (Ref.mk x)) = display (mention x)) ∧
    (∀ x : CategoryChannel, display (mention (Ref.mk x)) = display (mention x)) ∧
    (∀ x : Channel, display (mention (Ref.mk x)) = display (mention x)) ∧
    (∀ x : CurrentUser, display (mention (Ref.mk x)) = display (mention x)) ∧
    (∀ x : EmojiId, display (mention (Ref.mk x)) = display (mention x)) ∧
    (∀ x : Emoji, display (mention (Ref.mk x)) = display (mention x)) ∧
    (∀ x : Group, display (mention (Ref.mk x)) = display (mention x)) ∧
    (∀ x : GuildChannel, display (mention (Ref.mk x)) = display (mention x)) ∧
    (∀ x : Member, display (mention (Ref.mk x)) = display (mention x)) ∧
    (∀ x : PrivateChannel, display (mention (Ref.mk x)) = display (mention x)) ∧
    (∀ x : RoleId, display (mention (Ref.mk x)) = display (mention x)) ∧
    (∀ x : TextChannel, display (mention (Ref.mk x)) = display (mention x)) ∧
    (∀ x : UserId, display (mention (Ref.mk x)) = display (mention x)) ∧
    (∀ x : User, display (mention (Ref.mk x)) = display (mention x)) ∧
    (∀ x : VoiceChannel, display (mention (Ref.mk x)) = display (mention x)) :=
  ⟨fun _ => rfl, fun _ => rfl, fun _ => rfl, fun _ => rfl, fun _ => rfl,
   fun _ => rfl, fun _ => rfl, fun _ => rfl, fun _ => rfl, fun _ => rfl,
   fun _ => rfl, fun _ => rfl, fun _ => rfl, fun _ => rfl, fun _ => rfl⟩

/-- Claim C8: rendering a mention wrapper is a pure function of its entity
kind and identifier value: two wrappers of the same kind holding the same
value always render to identical text. -/
theorem render_deterministic :
    (∀ a b : MentionFormat ChannelId, a.val = b.val → display a = display b) ∧
    (∀ a b : MentionFormat EmojiId, a.val = b.val → display a = display b) ∧
    (∀ a b : MentionFormat RoleId, a.val = b.val → display a = display b) ∧
    (∀ a b : MentionFormat UserId, a.val = b.val → display a = display b) := by
  refine ⟨?_, ?_, ?_, ?_⟩ <;>
    · intro a b h
      cases a
      cases b
      cases h
      rfl

/-- Claim C8 witness: the theorem applied at concrete wrappers of each kind. -/
theorem render_deterministic_witness :
    display (MentionFormat.mk (ChannelId.mk 1)) = display (MentionFormat.mk (ChannelId.mk 1)) ∧
    display (MentionFormat.mk (EmojiId.mk 2)) = display (MentionFormat.mk (EmojiId.mk 2)) ∧
    display (MentionFormat.mk (RoleId.mk 3)) = display (MentionFormat.mk (RoleId.mk 3)) ∧
    display (MentionFormat.mk (UserId.mk 4)) = display (MentionFormat.mk (UserId.mk 4)) :=
  ⟨render_deterministic.1 _ _ rfl, render_deterministic.2.1 _ _ rfl,
   render_deterministic.2.2.1 _ _ rfl, render_deterministic.2.2.2 _ _ rfl⟩

/-- Claim C9: the formatting operation is total over every accepted input
type: every supported value yields a wrapper holding exactly one extracted
identifier, and rendering that wrapper yields a nonempty string with no
failure case. -/
theorem mention_total :
    (∀ x : ChannelId, ∃ i, mention x = MentionFormat.mk i ∧ display (mention x) ≠ "") ∧
    (∀ x : CategoryChannel, ∃ i, mention x = MentionFormat.mk i ∧ display (mention x) ≠ "") ∧
    (∀ x : Channel, ∃ i, mention x = MentionFormat.mk i ∧ display (mention x) ≠ "") ∧
    (∀ x : CurrentUser, ∃ i, mention x = MentionFormat.mk i ∧ display (mention x) ≠ "") ∧
    (∀ x : EmojiId, ∃ i, mention x = MentionFormat.mk i ∧ display (mention x) ≠ "") ∧
    (∀ x : Emoji, ∃ i, mention x = MentionFormat.mk i ∧ display (mention x) ≠ "") ∧
    (∀ x : Group, ∃ i, mention x = MentionFormat.mk i ∧ display (mention x) ≠ "") ∧
    (∀ x : GuildChannel, ∃ i, mention x = MentionFormat.mk i ∧ display (mention x) ≠ "") ∧
    (∀ x : Member, ∃ i, mention x = MentionFormat.mk i ∧ display (mention x) ≠ "") ∧
    (∀ x : PrivateChannel, ∃ i, mention x = MentionFormat.mk i ∧ display (mention x) ≠ "") ∧
    (∀ x : RoleId, ∃ i, mention x = MentionFormat.mk i ∧ display (mention x) ≠ "") ∧
    (∀ x : TextChannel, ∃ i, mention x = MentionFormat.mk i ∧ display (mention x) ≠ "") ∧
    (∀ x : UserId, ∃ i, mention x = MentionFormat.mk i ∧ display (mention x) ≠ "") ∧
    (∀ x : User, ∃ i, mention x = MentionFormat.mk i ∧ display (mention x) ≠ "") ∧
    (∀ x : VoiceChannel, ∃ i, mention x = MentionFormat.mk i ∧ display (mention x) ≠ "") := by
  refine ⟨fun x => ⟨x, rfl, wrapped_ne_empty "<#" _ ">" (by decide)⟩,
    fun x => ⟨x.id, rfl, wrapped_ne_empty "<#" _ ">" (by decide)⟩,
    fun x => ?_,
    fun x => ⟨x.id, rfl, wrapped_ne_empty "<@" _ ">" (by decide)⟩,
    fun x => ⟨x, rfl, wrapped_ne_empty "<:emoji:" _ ">" (by decide)⟩,
    fun x => ⟨x.id, rfl, wrapped_ne_empty "<:emoji:" _ ">" (by decide)⟩,
    fun x => ⟨x.id, rfl, wrapped_ne_empty "<#" _ ">" (by decide)⟩,
    fun x => ⟨guild_channel_id x, rfl, wrapped_ne_empty "<#" _ ">" (by decide)⟩,
    fun x => ⟨x.user.id, rfl, wrapped_ne_empty "<@" _ ">" (by decide)⟩,
    fun x => ⟨x.id, rfl, wrapped_ne_empty "<#" _ ">" (by decide)⟩,
    fun x => ⟨x, rfl, wrapped_ne_empty "<@&" _ ">" (by decide)⟩,
    fun x => ⟨x.id, rfl, wrapped_ne_empty "<#" _ ">" (by decide)⟩,
    fun x => ⟨x, rfl, wrapped_ne_empty "<@" _ ">" (by decide)⟩,
    fun x => ⟨x.id, rfl, wrapped_ne_empty "<@" _ ">" (by decide)⟩,
    fun x => ⟨x.id, rfl, wrapped_ne_empty "<#" _ ">" (by decide)⟩⟩
  cases x with
  | Group g => exact ⟨g.id, rfl, wrapped_ne_empty "<#" _ ">" (by decide)⟩
  | Guild g => exact ⟨guild_channel_id g, rfl, wrapped_ne_empty "<#" _ ">" (by decide)⟩
  | Private p => exact ⟨p.id, rfl, wrapped_ne_empty "<#" _ ">" (by decide)⟩

/-- Claim C10: wrapping a guild channel, a group DM or a private channel in
the channel union and formatting the union renders to exactly the same
text as formatting the inner object directly. -/
theorem channel_union_wrap_eq_direct :
    (∀ g : GuildChannel, display (mention (Channel.Guild g)) = display (mention g)) ∧
    (∀ g : Group, display (mention (Channel.Group g)) = display (mention g)) ∧
    (∀ p : PrivateChannel, display (mention (Channel.Private p)) = display (mention p)) :=
  ⟨fun _ => rfl, fun _ => rfl, fun _ => rfl⟩

end RarityMention
